import Mathlib

/-!
Verification development for the justsomecoffee point-of-sale repository.

The data layer (src/lib/supabase.ts) is embedded as pure state transformers
over a `Db` record holding the relevant tables; UI command handlers
(OrderEntry in its two variants, KitchenDisplay) are embedded as thin
wrappers over those transformers, exactly as in the source.  The offline
mirror (src/db/indexedDB.ts) is embedded over the client types of
src/types.ts, with the JavaScript `Date` builtin modelled by an executable
Gregorian-calendar codec.  Remote calls are modelled by passing the remote
outcome (`Option` of the response) as an explicit argument.
-/

/-- Order status enum, from the `order_status` SQL type and the TS unions. -/
inductive OrderStatus
  | pending
  | completed
  | cancelled
deriving DecidableEq

/-- Payment method union from the `payment` column ('qris' | 'cash' | 'transfer'). -/
inductive Payment
  | cash
  | qris
  | transfer
deriving DecidableEq

/-- Kitchen ticket status, from the `kds_ticket_status` SQL type. -/
inductive TicketStatus
  | new
  | preparing
  | ready
deriving DecidableEq

/-- Menu item status ('active' | 'inactive'). -/
inductive MenuStatus
  | active
  | inactive
deriving DecidableEq

/-- Measurement unit union ('ml' | 'g' | 'kg' | 'pcs'). -/
inductive MUnit
  | ml
  | g
  | kg
  | pcs
deriving DecidableEq

/-- Row of the `materials` table. -/
structure MaterialRow where
  id : String
  name : String
  unit : MUnit
  package_size : Int
  purchase_price : Int
deriving DecidableEq

/-- Row of the `menu_items` table. -/
structure MenuItemRow where
  id : String
  name : String
  category : String
  price : Int
  cost : Int
  status : MenuStatus
deriving DecidableEq

/-- Row of the `ingredients` table. -/
structure IngredientRow where
  menu_item_id : String
  material_id : Option String
  name : String
  quantity : Option Int
  unit : Option MUnit
  cost : Int
deriving DecidableEq

/-- Row of the `orders` table (`date` is kept as the ISO string the client sends). -/
structure OrderRow where
  id : String
  customer_name : Option String
  phone : Option String
  additional : Option String
  date : String
  total : Int
  status : OrderStatus
  payment : Option Payment
deriving DecidableEq

/-- Row of the `order_items` table. -/
structure OrderItemRow where
  order_id : String
  menu_item_id : String
  quantity : Int
  price_at_time : Int
deriving DecidableEq

/-- Row of the `kds_tickets` table. -/
structure TicketRow where
  order_id : String
  status : TicketStatus
deriving DecidableEq

/-- The database state visible to src/lib/supabase.ts. -/
structure Db where
  orders : List OrderRow
  order_items : List OrderItemRow
  kds_tickets : List TicketRow
  menu_items : List MenuItemRow
  ingredients : List IngredientRow
deriving DecidableEq

/-- Item of the `createOrder` input (menu_item_id, quantity, price_at_time). -/
structure NewOrderItem where
  menu_item_id : String
  quantity : Int
  price_at_time : Int
deriving DecidableEq

/-- The `order` argument of `createOrder` in src/lib/supabase.ts. -/
structure CreateOrderInput where
  customer_name : Option String
  phone : Option String
  additional : Option String
  date : Option String
  items : List NewOrderItem
deriving DecidableEq

/-- The total inserted by `createOrder`:
`order.items.reduce((sum, item) => sum + (item.price_at_time * item.quantity), 0)`. -/
def orderTotal (items : List NewOrderItem) : Int :=
  items.foldl (fun sum item => sum + item.price_at_time * item.quantity) 0

/-- The row `createOrder` inserts into `orders` (status 'pending', payment not set,
`date: order.date || new Date().toISOString()` with `now` standing for the
current time string). -/
def mkOrderRow (newId now : String) (o : CreateOrderInput) : OrderRow :=
  { id := newId
    customer_name := o.customer_name
    phone := o.phone
    additional := o.additional
    date := o.date.getD now
    total := orderTotal o.items
    status := OrderStatus.pending
    payment := none }

/-- `createOrder` of src/lib/supabase.ts with its three sequential inserts made
explicit.  Each `fail*` flag models the corresponding insert returning an
error (in which case the function throws: result `none`), after the earlier
inserts have already been committed; there is no transaction in the source.
The trailing webhook call performs no database write and is omitted. -/
def createOrderWith (db : Db) (newId now : String) (o : CreateOrderInput)
    (failOrder failItems failTicket : Bool) : Option OrderRow × Db :=
  if failOrder then (none, db)
  else
    let row := mkOrderRow newId now o
    let db1 := { db with orders := db.orders ++ [row] }
    if failItems then (none, db1)
    else
      let db2 := { db1 with order_items :=
        db1.order_items ++ o.items.map (fun item =>
          { order_id := row.id
            menu_item_id := item.menu_item_id
            quantity := item.quantity
            price_at_time := item.price_at_time }) }
      if failTicket then (none, db2)
      else
        (some row, { db2 with kds_tickets :=
          db2.kds_tickets ++ [{ order_id := row.id, status := TicketStatus.new }] })

/-- `createOrder` on the path where every insert succeeds. -/
def createOrder (db : Db) (newId now : String) (o : CreateOrderInput) :
    Option OrderRow × Db :=
  createOrderWith db newId now o false false false

/-- `updateOrderStatus` of src/lib/supabase.ts: an unconditional
`update({ status }).eq('id', orderId)` on the `orders` table. -/
def updateOrderStatus (db : Db) (orderId : String) (status : OrderStatus) : Db :=
  { db with orders := db.orders.map (fun o =>
      if o.id = orderId then { o with status := status } else o) }

/-- `updateKdsTicketStatus` of src/lib/supabase.ts: an unconditional
`update({ status }).eq('order_id', orderId)` on the `kds_tickets` table. -/
def updateKdsTicketStatus (db : Db) (orderId : String) (status : TicketStatus) : Db :=
  { db with kds_tickets := db.kds_tickets.map (fun t =>
      if t.order_id = orderId then { t with status := status } else t) }

/-- Ingredient element of the `updateMenuItem` input. -/
structure IngredientInput where
  material_id : Option String
  name : String
  quantity : Option Int
  unit : Option MUnit
  cost : Int
deriving DecidableEq

/-- The `updates` argument of `updateMenuItem` in src/lib/supabase.ts. -/
structure MenuItemUpdates where
  name : Option String
  category : Option String
  price : Option Int
  status : Option MenuStatus
  ingredients : Option (List IngredientInput)
deriving DecidableEq

/-- Merge of `menuItemUpdates` into a `menu_items` row; when ingredients are
supplied the row's cost is recomputed as their summed cost. -/
def applyMenuItemUpdates (m : MenuItemRow) (u : MenuItemUpdates) : MenuItemRow :=
  { m with
    name := u.name.getD m.name
    category := u.category.getD m.category
    price := u.price.getD m.price
    status := u.status.getD m.status
    cost := match u.ingredients with
      | some ings => ings.foldl (fun s g => s + g.cost) 0
      | none => m.cost }

/-- `updateMenuItem` of src/lib/supabase.ts: when ingredients are supplied it
deletes the item's existing ingredient rows and inserts the new ones, then
updates the `menu_items` row with the merged fields. -/
def updateMenuItem (db : Db) (menuItemId : String) (u : MenuItemUpdates) : Db :=
  let db1 : Db := match u.ingredients with
    | some ings =>
      { db with ingredients :=
          db.ingredients.filter (fun g => g.menu_item_id ≠ menuItemId) ++
          ings.map (fun g : IngredientInput =>
            ({ menu_item_id := menuItemId
               material_id := g.material_id
               name := g.name
               quantity := g.quantity
               unit := g.unit
               cost := g.cost } : IngredientRow)) }
    | none => db
  { db1 with menu_items := db1.menu_items.map (fun m =>
      if m.id = menuItemId then applyMenuItemUpdates m u else m) }

namespace OrderEntryA

/-- `completeOrder` of the basic OrderEntry component: it only calls
`updateOrderStatus(orderId, 'completed')`; no payment method is involved. -/
def completeOrder (db : Db) (orderId : String) : Db :=
  updateOrderStatus db orderId OrderStatus.completed

/-- `cancelOrder` of the basic OrderEntry component:
`updateOrderStatus(orderId, 'cancelled')`. -/
def cancelOrder (db : Db) (orderId : String) : Db :=
  updateOrderStatus db orderId OrderStatus.cancelled

end OrderEntryA

namespace OrderEntryB

/-- `completeOrder` of the OrderEntry variant with the payment modal: a direct
`update({ status: 'completed', payment: paymentMethod }).eq('id', orderId)`. -/
def completeOrder (db : Db) (orderId : String) (paymentMethod : Payment) : Db :=
  { db with orders := db.orders.map (fun o =>
      if o.id = orderId then
        { o with status := OrderStatus.completed, payment := some paymentMethod }
      else o) }

/-- `cancelOrder` of the same component: `updateOrderStatus(orderId, 'cancelled')`. -/
def cancelOrder (db : Db) (orderId : String) : Db :=
  updateOrderStatus db orderId OrderStatus.cancelled

/-- One line of the on-screen cart (`currentOrder`): a menu item and a quantity. -/
structure CartItem where
  menu_item : MenuItemRow
  quantity : Int
deriving DecidableEq

/-- `submitOrder`: when the cart is empty it alerts and returns before any
persistence (`Bool` result: whether an order was created); otherwise it calls
`createOrder` with items built from the cart, `price_at_time` taken from the
current menu price. -/
def submitOrder (db : Db) (newId now : String) (cart : List CartItem)
    (customerName customerPhone additional dateIso : String) : Db × Bool :=
  if cart.length = 0 then (db, false)
  else
    let input : CreateOrderInput :=
      { customer_name := if customerName = "" then none else some customerName
        phone := if customerPhone = "" then none else some customerPhone
        additional := if additional = "" then none else some additional
        date := some dateIso
        items := cart.map (fun item =>
          { menu_item_id := item.menu_item.id
            quantity := item.quantity
            price_at_time := item.menu_item.price }) }
    ((createOrder db newId now input).2, true)

end OrderEntryB

namespace KitchenDisplay

/-- `setTicketStatus` of KitchenDisplay.tsx: it only calls
`updateKdsTicketStatus(orderId, status)`. -/
def setTicketStatus (db : Db) (orderId : String) (status : TicketStatus) : Db :=
  updateKdsTicketStatus db orderId status

/-- `completeOrder` of KitchenDisplay.tsx: `updateOrderStatus(orderId, 'completed')`. -/
def completeOrder (db : Db) (orderId : String) : Db :=
  updateOrderStatus db orderId OrderStatus.completed

/-- `cancelOrder` of KitchenDisplay.tsx: `updateOrderStatus(orderId, 'cancelled')`. -/
def cancelOrder (db : Db) (orderId : String) : Db :=
  updateOrderStatus db orderId OrderStatus.cancelled

end KitchenDisplay

/-- The operations that can run after an order has been created, as named by
the lifecycle part of the spec: completing (either component variant),
cancelling, advancing a kitchen ticket, and any menu item update (price
changes included). -/
inductive Op
  | completeBasic (orderId : String)
  | completePay (orderId : String) (pm : Payment)
  | cancel (orderId : String)
  | advanceTicket (orderId : String) (status : TicketStatus)
  | menuUpdate (menuItemId : String) (u : MenuItemUpdates)

/-- Interpretation of an `Op` by the embedded source functions. -/
def applyOp (db : Db) : Op → Db
  | Op.completeBasic orderId => OrderEntryA.completeOrder db orderId
  | Op.completePay orderId pm => OrderEntryB.completeOrder db orderId pm
  | Op.cancel orderId => OrderEntryA.cancelOrder db orderId
  | Op.advanceTicket orderId status => KitchenDisplay.setTicketStatus db orderId status
  | Op.menuUpdate menuItemId u => updateMenuItem db menuItemId u

/-- A sequence of post-creation operations. -/
def applyOps (db : Db) (ops : List Op) : Db :=
  ops.foldl applyOp db

/-- The (id, total) projection of the orders table. -/
def idTotals (db : Db) : List (String × Int) :=
  db.orders.map (fun r => (r.id, r.total))

theorem applyOp_idTotals (db : Db) (op : Op) : idTotals (applyOp db op) = idTotals db := by
  cases op with
  | completeBasic orderId =>
      simp only [applyOp, OrderEntryA.completeOrder, updateOrderStatus, idTotals,
        List.map_map]
      exact List.map_congr_left (fun r _ => by by_cases h : r.id = orderId <;> simp [h])
  | completePay orderId pm =>
      simp only [applyOp, OrderEntryB.completeOrder, idTotals, List.map_map]
      exact List.map_congr_left (fun r _ => by by_cases h : r.id = orderId <;> simp [h])
  | cancel orderId =>
      simp only [applyOp, OrderEntryA.cancelOrder, updateOrderStatus, idTotals,
        List.map_map]
      exact List.map_congr_left (fun r _ => by by_cases h : r.id = orderId <;> simp [h])
  | advanceTicket orderId status =>
      simp only [applyOp, KitchenDisplay.setTicketStatus, updateKdsTicketStatus, idTotals]
  | menuUpdate menuItemId u =>
      cases hu : u.ingredients with
      | none => simp only [applyOp, updateMenuItem, hu, idTotals]
      | some ings => simp only [applyOp, updateMenuItem, hu, idTotals]

theorem applyOps_idTotals (ops : List Op) :
    ∀ db : Db, idTotals (applyOps db ops) = idTotals db := by
  induction ops with
  | nil => intro db; rfl
  | cons op rest ih =>
      intro db
      simp only [applyOps, List.foldl_cons]
      calc idTotals (List.foldl applyOp (applyOp db op) rest)
          = idTotals (applyOp db op) := ih (applyOp db op)
        _ = idTotals db := applyOp_idTotals db op

/-- Line of an order as delivered by the `v_orders_with_items` read model. -/
structure OrderViewItem where
  id : String
  menu_item_id : String
  quantity : Int
  price_at_time : Int
deriving DecidableEq

/-- Order record as delivered by the `v_orders_with_items` read model and
carried in realtime payloads for the `orders` table. -/
structure OrderView where
  id : String
  customer_name : Option String
  phone : Option String
  total : Int
  status : OrderStatus
  payment : Option Payment
  additional : Option String
  date : String
  items : List OrderViewItem
  kds_tickets : List TicketStatus
deriving DecidableEq

/-- The immediate-update part of the `ordersSubscription` handler in the
OrderEntry components: on INSERT the new record is prepended
(`[payload.new, ...prev]`), on DELETE records with the old id are filtered
out, on UPDATE records with the new id are replaced wholesale; any other
event type leaves the list unchanged.  The follow-up `getOrders()` refresh
replaces the whole collection and is modelled separately. -/
def ordersApplyEvent (prev : List OrderView) (eventType : String)
    (newRec oldRec : OrderView) : List OrderView :=
  if eventType = "INSERT" then newRec :: prev
  else if eventType = "DELETE" then prev.filter (fun o => o.id ≠ oldRec.id)
  else if eventType = "UPDATE" then
    prev.map (fun o => if o.id = newRec.id then newRec else o)
  else prev

/-- The immediate-update part of the `materialsSubscription` handler in the
HPP calculator component: on INSERT the new record is appended
(`[...prev, payload.new]`), DELETE and UPDATE as for orders. -/
def materialsApplyEvent (prev : List MaterialRow) (eventType : String)
    (newRec oldRec : MaterialRow) : List MaterialRow :=
  if eventType = "INSERT" then prev ++ [newRec]
  else if eventType = "DELETE" then prev.filter (fun m => m.id ≠ oldRec.id)
  else if eventType = "UPDATE" then
    prev.map (fun m => if m.id = newRec.id then newRec else m)
  else prev

/-- Client-side Material type of src/types.ts (camelCase fields, used by the
offline mirror in src/db/indexedDB.ts). -/
structure Material where
  id : String
  name : String
  unit : MUnit
  packageSize : Int
  purchasePrice : Int
deriving DecidableEq

/-- Client-side Ingredient type of src/types.ts. -/
structure ClientIngredient where
  name : String
  cost : Int
  materialId : Option String
  quantity : Option Int
  unit : Option MUnit
deriving DecidableEq

/-- Client-side MenuItem type of src/types.ts. -/
structure ClientMenuItem where
  id : String
  name : String
  category : String
  description : Option String
  price : Int
  cost : Int
  status : MenuStatus
  ingredients : List ClientIngredient
deriving DecidableEq

/-- Client-side OrderItem type of src/types.ts (nested menuItem snapshot). -/
structure ClientOrderItem where
  menuItem : ClientMenuItem
  quantity : Int
deriving DecidableEq

/-- Client-side Order type of src/types.ts; `date` is a JavaScript Date,
modelled as its timestamp in milliseconds since the Unix epoch. -/
structure ClientOrder where
  id : String
  customerName : Option String
  items : List ClientOrderItem
  total : Int
  date : Nat
  status : OrderStatus
deriving DecidableEq

/-- Parsed form of the ISO-8601 string produced by `Date.prototype.toISOString`
(YYYY-MM-DDTHH:mm:ss.sssZ); the string is represented by its seven numeric
fields, to which it is in bijection. -/
structure IsoDateTime where
  year : Nat
  month : Nat
  day : Nat
  hour : Nat
  minute : Nat
  second : Nat
  millis : Nat
deriving DecidableEq

/-- Modelled from the spec: the JavaScript Date builtin used by the mirror
("a value written as a timestamp must deserialize to an equivalent
timestamp").  Era years run March to February; era year `y` is leap when the
civil year `y + 1` is a Gregorian leap year. -/
def isLeapEraYear (y : Nat) : Bool :=
  ((y + 1) % 4 == 0) && (((y + 1) % 100 != 0) || ((y + 1) % 400 == 0))

/-- Length in days of era year `y`. -/
def eraYearLen (y : Nat) : Nat :=
  if isLeapEraYear y then 366 else 365

/-- Days before era year `y` within a 400-year era (valid for `y ≤ 399`). -/
def dstart (y : Nat) : Nat :=
  365 * y + y / 4 - y / 100

/-- Locate the era year containing a day of the era, by walking year lengths
(the way ECMA-262 defines YearFromTime); returns the year of the era and the
day within that year. -/
def findYear (rest y fuel : Nat) : Nat × Nat :=
  match fuel with
  | 0 => (y, rest)
  | fuel + 1 =>
    if rest < eraYearLen y then (y, rest)
    else findYear (rest - eraYearLen y) (y + 1) fuel

/-- Gregorian date (year, month, day) of a day count since 1970-01-01. -/
def civilFromDays (days : Nat) : Nat × Nat × Nat :=
  let zz := days + 719468
  let era := zz / 146097
  let doe := zz % 146097
  let yd := findYear doe 0 400
  let mp := (5 * yd.2 + 2) / 153
  let d := yd.2 - (153 * mp + 2) / 5 + 1
  let m := if mp < 10 then mp + 3 else mp - 9
  let y := yd.1 + era * 400
  (if m ≤ 2 then y + 1 else y, m, d)

/-- Day count since 1970-01-01 of a Gregorian date (`Date.parse` direction). -/
def daysFromCivil (y m d : Nat) : Nat :=
  let yy := if m ≤ 2 then y - 1 else y
  let era := yy / 400
  let yoe := yy % 400
  let mp := if 2 < m then m - 3 else m + 9
  let doy := (153 * mp + 2) / 5 + d - 1
  era * 146097 + dstart yoe + doy - 719468

/-- Model of `Date.prototype.toISOString` on a timestamp in milliseconds. -/
def toISOString (ms : Nat) : IsoDateTime :=
  let days := ms / 86400000
  let rem := ms % 86400000
  let c := civilFromDays days
  { year := c.1
    month := c.2.1
    day := c.2.2
    hour := rem / 3600000
    minute := rem % 3600000 / 60000
    second := rem % 60000 / 1000
    millis := rem % 1000 }

/-- Model of `new Date(isoString)` on the fields of an ISO-8601 string:
`Date.parse` recombines the calendar fields into a millisecond timestamp. -/
def parseISODate (t : IsoDateTime) : Nat :=
  daysFromCivil t.year t.month t.day * 86400000 +
    t.hour * 3600000 + t.minute * 60000 + t.second * 1000 + t.millis

set_option maxRecDepth 4000 in
theorem dstart_succ : ∀ y : Nat, y < 399 → dstart (y + 1) = dstart y + eraYearLen y := by
  decide

theorem dstart_399 : dstart 399 = 145731 ∧ eraYearLen 399 = 366 := by
  decide

theorem eraYearLen_le (y : Nat) : eraYearLen y ≤ 366 := by
  unfold eraYearLen
  split <;> omega

theorem findYear_spec (fuel : Nat) :
    ∀ rest y : Nat, y + fuel = 400 → y ≤ 399 → dstart y + rest ≤ 146096 →
      dstart (findYear rest y fuel).1 + (findYear rest y fuel).2 = dstart y + rest ∧
      (findYear rest y fuel).2 < eraYearLen (findYear rest y fuel).1 ∧
      (findYear rest y fuel).1 ≤ 399 := by
  induction fuel with
  | zero => intro rest y h1 h2 _; omega
  | succ n ih =>
    intro rest y h1 h2 h3
    rw [findYear]
    split
    · exact ⟨rfl, by assumption, h2⟩
    · rename_i hge
      have hy : y ≤ 398 := by
        rcases Nat.lt_or_ge y 399 with h | h
        · omega
        · have hy399 : y = 399 := by omega
          rw [hy399] at h3 hge
          rw [dstart_399.1] at h3
          rw [dstart_399.2] at hge
          omega
      have hstep : dstart (y + 1) = dstart y + eraYearLen y := dstart_succ y (by omega)
      have := ih (rest - eraYearLen y) (y + 1) (by omega) (by omega) (by omega)
      refine ⟨?_, this.2.1, this.2.2⟩
      rw [this.1]
      omega

theorem doe_split (doe : Nat) (h : doe ≤ 146096) :
    dstart (findYear doe 0 400).1 + (findYear doe 0 400).2 = doe ∧
    (findYear doe 0 400).2 ≤ 365 ∧
    (findYear doe 0 400).1 ≤ 399 := by
  have h0 : dstart 0 = 0 := by decide
  have := findYear_spec 400 doe 0 rfl (by omega) (by omega)
  have hl := eraYearLen_le (findYear doe 0 400).1
  exact ⟨by omega, by omega, this.2.2⟩

set_option maxRecDepth 4000 in
theorem month_split : ∀ doy : Nat, doy < 366 →
    (5 * doy + 2) / 153 ≤ 11 ∧ (153 * ((5 * doy + 2) / 153) + 2) / 5 ≤ doy := by
  decide

theorem civil_roundtrip (days : Nat) :
    daysFromCivil (civilFromDays days).1 (civilFromDays days).2.1
      (civilFromDays days).2.2 = days := by
  have hdoe : (days + 719468) % 146097 ≤ 146096 := by omega
  obtain ⟨h1, h2, h3⟩ := doe_split ((days + 719468) % 146097) hdoe
  obtain ⟨h4, h5⟩ := month_split (findYear ((days + 719468) % 146097) 0 400).2 (by omega)
  simp only [civilFromDays, daysFromCivil]
  have hmod : ((findYear ((days + 719468) % 146097) 0 400).1 +
      (days + 719468) / 146097 * 400) % 400 =
      (findYear ((days + 719468) % 146097) 0 400).1 := by omega
  have hdiv : ((findYear ((days + 719468) % 146097) 0 400).1 +
      (days + 719468) / 146097 * 400) / 400 =
      (days + 719468) / 146097 := by omega
  repeat' split
  all_goals
    first
      | omega
      | (simp only [Nat.add_sub_cancel, hmod, hdiv]; omega)

theorem parseISODate_toISOString (ms : Nat) : parseISODate (toISOString ms) = ms := by
  simp only [toISOString, parseISODate]
  rw [civil_roundtrip]
  omega

/-- An order as it sits in the durable mirror: the JSON-serialized record, its
`date` field being the ISO string written by `saveToStorage`. -/
structure StoredOrder where
  id : String
  customerName : Option String
  items : List ClientOrderItem
  total : Int
  date : IsoDateTime
  status : OrderStatus
deriving DecidableEq

/-- The element transformation of `saveToStorage` for orders:
`date: new Date(item.date).toISOString()` plus a structural copy of the
nested items (`{...orderItem, menuItem: {...orderItem.menuItem}}`). -/
def saveOrderRecord (o : ClientOrder) : StoredOrder :=
  { id := o.id
    customerName := o.customerName
    items := o.items.map (fun it => { it with menuItem := it.menuItem })
    total := o.total
    date := toISOString o.date
    status := o.status }

/-- `saveToStorage` instantiated at the orders collection. -/
def saveToStorageOrders (data : List ClientOrder) : List StoredOrder :=
  data.map saveOrderRecord

/-- The element transformation of `getFromStorage` for orders:
`date: new Date(item.date)` plus the structural copy of nested items. -/
def loadOrderRecord (s : StoredOrder) : ClientOrder :=
  { id := s.id
    customerName := s.customerName
    items := s.items.map (fun it => { it with menuItem := it.menuItem })
    total := s.total
    date := parseISODate s.date
    status := s.status }

/-- `getFromStorage` instantiated at the orders collection. -/
def getFromStorageOrders (stored : List StoredOrder) : List ClientOrder :=
  stored.map loadOrderRecord

/-- `getFromStorage` instantiated at the materials collection: materials carry
no `date` or `items` field, so the per-record conversion is the identity. -/
def getFromStorageMaterials (stored : List Material) : List Material :=
  stored.map (fun m => m)

/-- `getFromStorage` instantiated at the menu-items collection (again no
`date` field on the stored records). -/
def getFromStorageMenuItems (stored : List ClientMenuItem) : List ClientMenuItem :=
  stored.map (fun m => m)

/-- `getAllMaterials` of src/db/indexedDB.ts.  The remote fetch outcome is the
`remote` argument (`none`: the fetch or its JSON decoding threw).  Result:
the collection handed to the caller, paired with the mirror contents after
the call.  A non-empty server response overwrites the mirror and is
returned; an empty response or a failure leaves the mirror untouched and
returns the local data. -/
def getAllMaterials (remote : Option (List Material)) (st : List Material) :
    List Material × List Material :=
  let localMaterials := getFromStorageMaterials st
  match remote with
  | some serverMaterials =>
    if 0 < serverMaterials.length then (serverMaterials, serverMaterials)
    else (localMaterials, st)
  | none => (getFromStorageMaterials st, st)

/-- `getAllMenuItems` of src/db/indexedDB.ts, same shape as `getAllMaterials`. -/
def getAllMenuItems (remote : Option (List ClientMenuItem)) (st : List ClientMenuItem) :
    List ClientMenuItem × List ClientMenuItem :=
  let localMenuItems := getFromStorageMenuItems st
  match remote with
  | some serverMenuItems =>
    if 0 < serverMenuItems.length then (serverMenuItems, serverMenuItems)
    else (localMenuItems, st)
  | none => (getFromStorageMenuItems st, st)

/-- The per-order processing `getAllOrders` applies to a server order:
`{...order, date: new Date(order.date)}`. -/
def parseServerOrder (s : StoredOrder) : ClientOrder :=
  { id := s.id
    customerName := s.customerName
    items := s.items
    total := s.total
    date := parseISODate s.date
    status := s.status }

/-- `getAllOrders` of src/db/indexedDB.ts: local orders are read from the
mirror and their dates rewrapped; a non-empty server response is processed,
saved to the mirror, and returned; an empty response or a failed fetch
returns the processed local orders with the mirror untouched. -/
def getAllOrders (remote : Option (List StoredOrder)) (st : List StoredOrder) :
    List ClientOrder × List StoredOrder :=
  let processedLocalOrders := getFromStorageOrders st
  match remote with
  | some serverOrders =>
    if 0 < serverOrders.length then
      let processedServerOrders := serverOrders.map parseServerOrder
      (processedServerOrders, saveToStorageOrders processedServerOrders)
    else (processedLocalOrders, st)
  | none => (getFromStorageOrders st, st)

/-- Empty database fixture. -/
def exEmptyDb : Db :=
  { orders := [], order_items := [], kds_tickets := [], menu_items := [], ingredients := [] }

/-- Sample `createOrder` input: one item, quantity 2 at price 15000. -/
def exInput : CreateOrderInput :=
  { customer_name := some "Budi"
    phone := none
    additional := none
    date := some "2025-01-02T09:00:00.000Z"
    items := [{ menu_item_id := "A", quantity := 2, price_at_time := 15000 }] }

/-- Fixed current-time string used where the source would call `new Date()`. -/
def exNow : String := "2025-01-02T10:00:00.000Z"

theorem createOrder_orders_eq (db : Db) (newId now : String) (o : CreateOrderInput) :
    (createOrder db newId now o).2.orders = db.orders ++ [mkOrderRow newId now o] := by
  simp [createOrder, createOrderWith]

/-- Claim C1: an order created by `createOrder` from a non-empty items list is
persisted with `total` equal to the sum of `price_at_time * quantity` over its
items, and that stored total survives any later sequence of lifecycle or menu
operations (completing in either component variant, cancelling, advancing the
kitchen ticket, updating a menu item's price or ingredients) unchanged. -/
theorem order_total_snapshot_immutable (db : Db) (newId now : String)
    (o : CreateOrderInput) (ops : List Op) (_hne : o.items ≠ [])
    (hfresh : ∀ r ∈ db.orders, r.id ≠ newId) :
    (∃ r ∈ (applyOps (createOrder db newId now o).2 ops).orders,
        r.id = newId ∧ r.total = orderTotal o.items) ∧
    (∀ r ∈ (applyOps (createOrder db newId now o).2 ops).orders,
        r.id = newId → r.total = orderTotal o.items) := by
  have hIT : idTotals (applyOps (createOrder db newId now o).2 ops) =
      idTotals (createOrder db newId now o).2 := applyOps_idTotals ops _
  have hIT2 : idTotals (createOrder db newId now o).2 =
      idTotals db ++ [(newId, orderTotal o.items)] := by
    simp [idTotals, createOrder_orders_eq, mkOrderRow]
  constructor
  · have hmem : (newId, orderTotal o.items) ∈
        idTotals (applyOps (createOrder db newId now o).2 ops) := by
      rw [hIT, hIT2]; simp
    obtain ⟨r, hr, hpr⟩ := List.mem_map.mp hmem
    obtain ⟨hA, hB⟩ := Prod.mk.injEq .. ▸ hpr
    exact ⟨r, hr, hA, hB⟩
  · intro r hr hid
    have hmem : (r.id, r.total) ∈
        idTotals (applyOps (createOrder db newId now o).2 ops) :=
      List.mem_map_of_mem _ hr
    rw [hIT, hIT2] at hmem
    rcases List.mem_append.mp hmem with h | h
    · exfalso
      obtain ⟨r2, hr2, he⟩ := List.mem_map.mp h
      have : r2.id = r.id := (Prod.mk.injEq .. ▸ he).1
      exact hfresh r2 hr2 (this.trans hid)
    · have := List.mem_singleton.mp h
      exact (Prod.mk.injEq .. ▸ this).2

/-- Menu update fixture that changes only the price. -/
def exPriceUpdate : MenuItemUpdates :=
  { name := none
    category := none
    price := some 99000
    status := none
    ingredients := none }

/-- Post-creation operation sequence fixture: complete with cash, mark the
ticket ready, then raise the menu item price. -/
def exOps : List Op :=
  [Op.completePay "o1" Payment.cash, Op.advanceTicket "o1" TicketStatus.ready,
   Op.menuUpdate "A" exPriceUpdate]

/-- Witness for C1 at a concrete input: a fresh database, one order of total
30000, followed by a complete, a ticket advance, and a menu price change. -/
theorem order_total_snapshot_immutable_witness :
    (∃ r ∈ (applyOps (createOrder exEmptyDb "o1" exNow exInput).2 exOps).orders,
        r.id = "o1" ∧ r.total = orderTotal exInput.items) ∧
    (∀ r ∈ (applyOps (createOrder exEmptyDb "o1" exNow exInput).2 exOps).orders,
        r.id = "o1" → r.total = orderTotal exInput.items) :=
  order_total_snapshot_immutable exEmptyDb "o1" exNow exInput exOps
    (by decide) (by intro r hr; simp [exEmptyDb] at hr)

/-- A cancelled order row fixture. -/
def exCancelledRow : OrderRow :=
  { id := "o1"
    customer_name := some "Budi"
    phone := none
    additional := none
    date := "2025-01-01T00:00:00.000Z"
    total := 30000
    status := OrderStatus.cancelled
    payment := none }

/-- Database fixture holding the single cancelled order. -/
def exDbCancelled : Db :=
  { orders := [exCancelledRow]
    order_items := []
    kds_tickets := []
    menu_items := []
    ingredients := [] }

/-- Counterexample to C2: `completeOrder` (payment-modal variant) invoked on a
cancelled — hence terminal — order does not fail with `InvalidTransition`: it
returns normally and overwrites the stored state, turning the cancelled order
into a completed one with the supplied payment. -/
theorem completeOrder_escapes_terminal_state :
    (OrderEntryB.completeOrder exDbCancelled "o1" Payment.cash).orders =
      [{ exCancelledRow with
          status := OrderStatus.completed
          payment := some Payment.cash }] ∧
    OrderEntryB.completeOrder exDbCancelled "o1" Payment.cash ≠ exDbCancelled := by
  constructor
  · simp [OrderEntryB.completeOrder, exDbCancelled, exCancelledRow]
  · decide

/-- Claim C2 amended: `updateOrderStatus` (the engine behind `completeOrder`
and `cancelOrder` of the basic component) and the payment-modal
`completeOrder` apply the requested status to every order with the target id
unconditionally — the current status, terminal or not, is never consulted and
no `InvalidTransition` error exists (both functions are total); orders with a
different id are left unchanged. -/
theorem updateOrderStatus_overwrites_unconditionally (db : Db) (orderId : String)
    (s : OrderStatus) (pm : Payment) (r : OrderRow) (hmem : r ∈ db.orders) :
    (r.id = orderId → { r with status := s } ∈ (updateOrderStatus db orderId s).orders) ∧
    (r.id = orderId → { r with status := OrderStatus.completed, payment := some pm } ∈
        (OrderEntryB.completeOrder db orderId pm).orders) ∧
    (r.id ≠ orderId → r ∈ (updateOrderStatus db orderId s).orders) := by
  refine ⟨fun h => ?_, fun h => ?_, fun h => ?_⟩
  · have h2 : (if r.id = orderId then { r with status := s } else r) ∈
        db.orders.map (fun o : OrderRow =>
          if o.id = orderId then { o with status := s } else o) :=
      List.mem_map_of_mem _ hmem
    rw [if_pos h] at h2
    exact h2
  · have h2 : (if r.id = orderId then
        { r with status := OrderStatus.completed, payment := some pm } else r) ∈
        db.orders.map (fun o : OrderRow => if o.id = orderId then
          { o with status := OrderStatus.completed, payment := some pm } else o) :=
      List.mem_map_of_mem _ hmem
    rw [if_pos h] at h2
    exact h2
  · have h2 : (if r.id = orderId then { r with status := s } else r) ∈
        db.orders.map (fun o : OrderRow =>
          if o.id = orderId then { o with status := s } else o) :=
      List.mem_map_of_mem _ hmem
    rw [if_neg h] at h2
    exact h2

/-- Witness for the amended C2 at the cancelled-order fixture. -/
theorem updateOrderStatus_overwrites_unconditionally_witness :
    (exCancelledRow.id = "o1" → { exCancelledRow with status := OrderStatus.completed } ∈
        (updateOrderStatus exDbCancelled "o1" OrderStatus.completed).orders) ∧
    (exCancelledRow.id = "o1" →
        { exCancelledRow with
          status := OrderStatus.completed
          payment := some Payment.cash } ∈
        (OrderEntryB.completeOrder exDbCancelled "o1" Payment.cash).orders) ∧
    (exCancelledRow.id ≠ "o1" → exCancelledRow ∈
        (updateOrderStatus exDbCancelled "o1" OrderStatus.completed).orders) :=
  updateOrderStatus_overwrites_unconditionally exDbCancelled "o1"
    OrderStatus.completed Payment.cash exCancelledRow (by simp [exDbCancelled])

/-- A pending order row fixture with no payment. -/
def exPendingRow : OrderRow :=
  { id := "o1"
    customer_name := some "Budi"
    phone := none
    additional := none
    date := "2025-01-01T00:00:00.000Z"
    total := 30000
    status := OrderStatus.pending
    payment := none }

/-- Database fixture holding the single pending order and its fresh ticket. -/
def exDbPending : Db :=
  { orders := [exPendingRow]
    order_items := [{ order_id := "o1", menu_item_id := "A", quantity := 2, price_at_time := 15000 }]
    kds_tickets := [{ order_id := "o1", status := TicketStatus.new }]
    menu_items := []
    ingredients := [] }

/-- Counterexample to C3: `completeOrder` of the basic OrderEntry component
takes no payment method at all — it calls `updateOrderStatus(orderId,
'completed')` on a pending order without any `ValidationError`, producing a
completed order whose payment is still null. -/
theorem completed_order_with_null_payment :
    (OrderEntryA.completeOrder exDbPending "o1").orders =
      [{ exPendingRow with status := OrderStatus.completed }] ∧
    ({ exPendingRow with status := OrderStatus.completed } : OrderRow).payment = none := by
  constructor
  · simp [OrderEntryA.completeOrder, updateOrderStatus, exDbPending, exPendingRow]
  · rfl

/-- Claim C3 amended: only the payment-modal variant sets a payment on
completion — `OrderEntryB.completeOrder` marks the target order completed
with `payment := some pm` — while the basic `OrderEntryA.completeOrder` marks
it completed leaving the payment field exactly as it was (null included), and
neither path performs any validation, so the system does not guarantee that a
completed order has a non-null payment. -/
theorem completeOrder_payment_not_enforced (db : Db) (orderId : String)
    (pm : Payment) (r : OrderRow) (hmem : r ∈ db.orders) (hid : r.id = orderId) :
    { r with status := OrderStatus.completed, payment := some pm } ∈
        (OrderEntryB.completeOrder db orderId pm).orders ∧
    { r with status := OrderStatus.completed } ∈
        (OrderEntryA.completeOrder db orderId).orders := by
  constructor
  · have h2 : (if r.id = orderId then
        { r with status := OrderStatus.completed, payment := some pm } else r) ∈
        db.orders.map (fun o : OrderRow => if o.id = orderId then
          { o with status := OrderStatus.completed, payment := some pm } else o) :=
      List.mem_map_of_mem _ hmem
    rw [if_pos hid] at h2
    exact h2
  · have h2 : (if r.id = orderId then
        { r with status := OrderStatus.completed } else r) ∈
        db.orders.map (fun o : OrderRow => if o.id = orderId then
          { o with status := OrderStatus.completed } else o) :=
      List.mem_map_of_mem _ hmem
    rw [if_pos hid] at h2
    exact h2

/-- Witness for the amended C3 at the pending-order fixture: completing via
the basic component leaves `payment = none` on a now-completed order. -/
theorem completeOrder_payment_not_enforced_witness :
    { exPendingRow with status := OrderStatus.completed, payment := some Payment.qris } ∈
        (OrderEntryB.completeOrder exDbPending "o1" Payment.qris).orders ∧
    { exPendingRow with status := OrderStatus.completed } ∈
        (OrderEntryA.completeOrder exDbPending "o1").orders :=
  completeOrder_payment_not_enforced exDbPending "o1" Payment.qris exPendingRow
    (by simp [exDbPending]) rfl

/-- Database fixture: a pending order whose kitchen ticket is already ready. -/
def exDbTicketReady : Db :=
  { orders := [exPendingRow]
    order_items := []
    kds_tickets := [{ order_id := "o1", status := TicketStatus.ready }]
    menu_items := []
    ingredients := [] }

/-- Counterexample to C4: a backward ticket request (ready → preparing) via
`setTicketStatus` does not fail with `InvalidTransition` and does not leave
the ticket unchanged — it simply overwrites the ticket status backwards. -/
theorem backward_ticket_request_applies :
    (KitchenDisplay.setTicketStatus exDbTicketReady "o1" TicketStatus.preparing).kds_tickets =
      [{ order_id := "o1", status := TicketStatus.preparing }] := by
  simp [KitchenDisplay.setTicketStatus, updateKdsTicketStatus, exDbTicketReady]

/-- Claim C4 amended: `updateKdsTicketStatus` (behind `setTicketStatus`) sets
every ticket of the target order to the requested status unconditionally —
forward moves, the new → ready skip, same-status requests (a value-level
no-op) and backward moves all succeed alike, with no `InvalidTransition`
check; tickets of other orders are untouched. -/
theorem updateKdsTicketStatus_overwrites (db : Db) (orderId : String)
    (s : TicketStatus) (t : TicketRow) (hmem : t ∈ db.kds_tickets) :
    (t.order_id = orderId → { t with status := s } ∈
        (updateKdsTicketStatus db orderId s).kds_tickets) ∧
    (t.order_id = orderId → t.status = s → t ∈
        (updateKdsTicketStatus db orderId s).kds_tickets) ∧
    (t.order_id ≠ orderId → t ∈ (updateKdsTicketStatus db orderId s).kds_tickets) := by
  have base : ∀ h : t.order_id = orderId, { t with status := s } ∈
      (updateKdsTicketStatus db orderId s).kds_tickets := by
    intro h
    have h2 : (if t.order_id = orderId then { t with status := s } else t) ∈
        db.kds_tickets.map (fun u : TicketRow =>
          if u.order_id = orderId then { u with status := s } else u) :=
      List.mem_map_of_mem _ hmem
    rw [if_pos h] at h2
    exact h2
  refine ⟨base, fun h hs => ?_, fun h => ?_⟩
  · have h2 := base h
    have he : ({ t with status := s } : TicketRow) = t := by
      cases t
      subst hs
      rfl
    rwa [he] at h2
  · have h2 : (if t.order_id = orderId then { t with status := s } else t) ∈
        db.kds_tickets.map (fun u : TicketRow =>
          if u.order_id = orderId then { u with status := s } else u) :=
      List.mem_map_of_mem _ hmem
    rw [if_neg h] at h2
    exact h2

/-- Witness for the amended C4 at the ready-ticket fixture. -/
theorem updateKdsTicketStatus_overwrites_witness :
    (("o1" : String) = "o1" → { order_id := "o1", status := TicketStatus.preparing } ∈
        (updateKdsTicketStatus exDbTicketReady "o1" TicketStatus.preparing).kds_tickets) ∧
    (("o1" : String) = "o1" → TicketStatus.ready = TicketStatus.preparing →
        ({ order_id := "o1", status := TicketStatus.ready } : TicketRow) ∈
        (updateKdsTicketStatus exDbTicketReady "o1" TicketStatus.preparing).kds_tickets) ∧
    (("o1" : String) ≠ "o1" → ({ order_id := "o1", status := TicketStatus.ready } : TicketRow) ∈
        (updateKdsTicketStatus exDbTicketReady "o1" TicketStatus.preparing).kds_tickets) :=
  updateKdsTicketStatus_overwrites exDbTicketReady "o1" TicketStatus.preparing
    { order_id := "o1", status := TicketStatus.ready } (by simp [exDbTicketReady])

/-- Counterexample to C5: when the `order_items` insert fails, `createOrder`
reports a failure, yet the order row inserted by the first step stays
persisted with no items and no ticket — partial state survives, so the three
writes are not atomic. -/
theorem createOrder_leaves_partial_state :
    (createOrderWith exEmptyDb "o1" exNow exInput false true false).1 = none ∧
    (createOrderWith exEmptyDb "o1" exNow exInput false true false).2.orders =
      [mkOrderRow "o1" exNow exInput] ∧
    (createOrderWith exEmptyDb "o1" exNow exInput false true false).2.order_items = [] ∧
    (createOrderWith exEmptyDb "o1" exNow exInput false true false).2.kds_tickets = [] := by
  refine ⟨rfl, ?_, rfl, rfl⟩
  simp [createOrderWith, exEmptyDb]

/-- Claim C5 amended: on the all-inserts-succeed path `createOrder` does
persist the pending order, its items and exactly one paired ticket in state
`new`; but the three inserts are sequential and non-transactional, so a
failure of a later insert is reported while the earlier writes remain — an
order without its items and ticket can be left behind. -/
theorem createOrder_success_shape_and_nonatomicity (db : Db) (newId now : String)
    (o : CreateOrderInput) (hticket : ∀ t ∈ db.kds_tickets, t.order_id ≠ newId) :
    (createOrder db newId now o).1 = some (mkOrderRow newId now o) ∧
    (createOrder db newId now o).2.orders = db.orders ++ [mkOrderRow newId now o] ∧
    (mkOrderRow newId now o).status = OrderStatus.pending ∧
    (createOrder db newId now o).2.order_items =
      db.order_items ++ o.items.map (fun item =>
        { order_id := newId
          menu_item_id := item.menu_item_id
          quantity := item.quantity
          price_at_time := item.price_at_time }) ∧
    (createOrder db newId now o).2.kds_tickets.filter (fun t => t.order_id = newId) =
      [{ order_id := newId, status := TicketStatus.new }] ∧
    (createOrderWith db newId now o false true false).1 = none ∧
    (createOrderWith db newId now o false true false).2.orders =
      db.orders ++ [mkOrderRow newId now o] ∧
    (createOrderWith db newId now o false true false).2.order_items = db.order_items ∧
    (createOrderWith db newId now o false true false).2.kds_tickets = db.kds_tickets := by
  have hnil : db.kds_tickets.filter (fun t => t.order_id = newId) = [] := by
    rw [List.filter_eq_nil_iff]
    intro t ht
    simpa using hticket t ht
  refine ⟨rfl, by simp [createOrder, createOrderWith], rfl, ?_, ?_, rfl, ?_, rfl, rfl⟩
  · simp [createOrder, createOrderWith, mkOrderRow]
  · show (db.kds_tickets ++ [({ order_id := newId, status := TicketStatus.new } : TicketRow)]).filter
      (fun t => t.order_id = newId) = [({ order_id := newId, status := TicketStatus.new } : TicketRow)]
    rw [List.filter_append, hnil]
    simp
  · simp [createOrderWith]

/-- Witness for the amended C5 at the concrete sample order. -/
theorem createOrder_success_shape_and_nonatomicity_witness :
    (createOrder exEmptyDb "o1" exNow exInput).1 = some (mkOrderRow "o1" exNow exInput) ∧
    (createOrder exEmptyDb "o1" exNow exInput).2.orders =
      exEmptyDb.orders ++ [mkOrderRow "o1" exNow exInput] ∧
    (mkOrderRow "o1" exNow exInput).status = OrderStatus.pending ∧
    (createOrder exEmptyDb "o1" exNow exInput).2.order_items =
      exEmptyDb.order_items ++ exInput.items.map (fun item =>
        { order_id := "o1"
          menu_item_id := item.menu_item_id
          quantity := item.quantity
          price_at_time := item.price_at_time }) ∧
    (createOrder exEmptyDb "o1" exNow exInput).2.kds_tickets.filter
        (fun t => t.order_id = "o1") =
      [{ order_id := "o1", status := TicketStatus.new }] ∧
    (createOrderWith exEmptyDb "o1" exNow exInput false true false).1 = none ∧
    (createOrderWith exEmptyDb "o1" exNow exInput false true false).2.orders =
      exEmptyDb.orders ++ [mkOrderRow "o1" exNow exInput] ∧
    (createOrderWith exEmptyDb "o1" exNow exInput false true false).2.order_items =
      exEmptyDb.order_items ∧
    (createOrderWith exEmptyDb "o1" exNow exInput false true false).2.kds_tickets =
      exEmptyDb.kds_tickets :=
  createOrder_success_shape_and_nonatomicity exEmptyDb "o1" exNow exInput
    (by intro t ht; simp [exEmptyDb] at ht)

/-- `createOrder` input with an empty items list. -/
def exEmptyInput : CreateOrderInput :=
  { customer_name := none
    phone := none
    additional := none
    date := some "2025-01-02T09:00:00.000Z"
    items := [] }

/-- Counterexample to C6: calling `createOrder` with an empty items list does
not fail with `EmptyOrder` — no validation runs at this layer — and it does
persist an order row (total 0) together with a fresh kitchen ticket. -/
theorem createOrder_accepts_empty_items :
    (createOrder exEmptyDb "o1" exNow exEmptyInput).1 =
      some (mkOrderRow "o1" exNow exEmptyInput) ∧
    (createOrder exEmptyDb "o1" exNow exEmptyInput).2.orders =
      [mkOrderRow "o1" exNow exEmptyInput] ∧
    (mkOrderRow "o1" exNow exEmptyInput).total = 0 ∧
    (createOrder exEmptyDb "o1" exNow exEmptyInput).2.kds_tickets =
      [{ order_id := "o1", status := TicketStatus.new }] := by
  refine ⟨rfl, ?_, rfl, ?_⟩ <;>
    simp [createOrder, createOrderWith, exEmptyDb, mkOrderRow]

/-- Claim C6 amended: the empty-order rejection lives only in the UI —
`submitOrder` returns early (alert, no error value) without touching the
database when the cart is empty — while `createOrder` itself validates
nothing: for every input, empty items or non-positive quantities included, it
unconditionally persists the order row built from the input. -/
theorem empty_order_rejected_only_in_ui (db : Db) (newId now : String)
    (cart : List OrderEntryB.CartItem) (cn ph ad di : String) (o : CreateOrderInput)
    (hempty : cart = []) :
    OrderEntryB.submitOrder db newId now cart cn ph ad di = (db, false) ∧
    (createOrder db newId now o).1 = some (mkOrderRow newId now o) ∧
    (createOrder db newId now o).2.orders = db.orders ++ [mkOrderRow newId now o] := by
  refine ⟨?_, rfl, by simp [createOrder, createOrderWith]⟩
  subst hempty
  rfl

/-- Witness for the amended C6: empty cart at the empty database, and the
sample input with a zero-quantity item is still persisted. -/
theorem empty_order_rejected_only_in_ui_witness :
    OrderEntryB.submitOrder exEmptyDb "o1" exNow [] "" "" "" "2025-01-02T09:00:00.000Z" =
      (exEmptyDb, false) ∧
    (createOrder exEmptyDb "o1" exNow exEmptyInput).1 =
      some (mkOrderRow "o1" exNow exEmptyInput) ∧
    (createOrder exEmptyDb "o1" exNow exEmptyInput).2.orders =
      exEmptyDb.orders ++ [mkOrderRow "o1" exNow exEmptyInput] :=
  empty_order_rejected_only_in_ui exEmptyDb "o1" exNow [] "" "" ""
    "2025-01-02T09:00:00.000Z" exEmptyInput rfl

/-- A sample order record as carried by a realtime payload. -/
def exOrderView : OrderView :=
  { id := "o1"
    customer_name := some "Budi"
    phone := none
    total := 30000
    status := OrderStatus.pending
    payment := none
    additional := none
    date := "2025-01-01T00:00:00.000Z"
    items := []
    kds_tickets := [TicketStatus.new] }

/-- Counterexample to C7: delivering the same `insert` event twice to the
orders handler leaves two records with that id in the collection — the
handler prepends unconditionally instead of keying by id. -/
theorem insert_event_twice_duplicates :
    ordersApplyEvent (ordersApplyEvent [] "INSERT" exOrderView exOrderView)
      "INSERT" exOrderView exOrderView = [exOrderView, exOrderView] ∧
    (ordersApplyEvent (ordersApplyEvent [] "INSERT" exOrderView exOrderView)
      "INSERT" exOrderView exOrderView).countP (fun o => o.id = "o1") = 2 := by
  constructor <;> rfl

/-- Claim C7 amended: the immediate-update handlers do not key inserts by id —
an `insert` event unconditionally prepends (orders) or appends (materials)
the record, so the same event applied twice leaves two records with that id
(only the follow-up full refresh collapses them); a `delete` event for an id
absent from the collection is a no-op and raises no error. -/
theorem reconciler_insert_duplicates_delete_noop (prev : List OrderView)
    (r d : OrderView) (mprev : List MaterialRow) (mr md : MaterialRow)
    (h : ∀ o ∈ prev, o.id ≠ d.id) (hm : ∀ m ∈ mprev, m.id ≠ md.id) :
    ordersApplyEvent prev "INSERT" r r = r :: prev ∧
    ordersApplyEvent (ordersApplyEvent prev "INSERT" r r) "INSERT" r r =
      r :: r :: prev ∧
    ordersApplyEvent prev "DELETE" r d = prev ∧
    materialsApplyEvent mprev "INSERT" mr mr = mprev ++ [mr] ∧
    materialsApplyEvent mprev "DELETE" mr md = mprev := by
  refine ⟨rfl, rfl, ?_, rfl, ?_⟩
  · show List.filter (fun o => o.id ≠ d.id) prev = prev
    rw [List.filter_eq_self]
    intro o ho
    simpa using h o ho
  · show List.filter (fun m => m.id ≠ md.id) mprev = mprev
    rw [List.filter_eq_self]
    intro m hmem
    simpa using hm m hmem

/-- Witness for the amended C7 at concrete one-element collections. -/
theorem reconciler_insert_duplicates_delete_noop_witness :
    ordersApplyEvent [] "INSERT" exOrderView exOrderView = [exOrderView] ∧
    ordersApplyEvent (ordersApplyEvent [] "INSERT" exOrderView exOrderView)
      "INSERT" exOrderView exOrderView = [exOrderView, exOrderView] ∧
    ordersApplyEvent [] "DELETE" exOrderView exOrderView = [] ∧
    materialsApplyEvent [] "INSERT"
      { id := "m1", name := "Milk", unit := MUnit.ml, package_size := 1000,
        purchase_price := 15000 }
      { id := "m1", name := "Milk", unit := MUnit.ml, package_size := 1000,
        purchase_price := 15000 } =
      [{ id := "m1", name := "Milk", unit := MUnit.ml, package_size := 1000,
         purchase_price := 15000 }] ∧
    materialsApplyEvent [] "DELETE"
      { id := "m1", name := "Milk", unit := MUnit.ml, package_size := 1000,
        purchase_price := 15000 }
      { id := "m1", name := "Milk", unit := MUnit.ml, package_size := 1000,
        purchase_price := 15000 } = [] :=
  reconciler_insert_duplicates_delete_noop [] exOrderView exOrderView []
    { id := "m1", name := "Milk", unit := MUnit.ml, package_size := 1000,
      purchase_price := 15000 }
    { id := "m1", name := "Milk", unit := MUnit.ml, package_size := 1000,
      purchase_price := 15000 }
    (by intro o ho; simp at ho) (by intro m hmem; simp at hmem)

/-- A sample client-side material (camelCase shape). -/
def exMaterial : Material :=
  { id := "m1"
    name := "Milk"
    unit := MUnit.ml
    packageSize := 1000
    purchasePrice := 15000 }

/-- Counterexample to C8: with `[exMaterial]` in the mirror, a failed remote
read produces exactly the same outcome (returned collection and mirror) as a
fresh successful read of the same data — the caller receives no
degraded-mode signal of any kind that could distinguish the two. -/
theorem failed_read_indistinguishable_from_fresh :
    getAllMaterials none [exMaterial] = getAllMaterials (some [exMaterial]) [exMaterial] := by
  rfl

/-- Claim C8 amended: a failed remote read does not fail hard — it returns the
most recently cached mirror contents unchanged (for materials and menu items
alike) — but no recoverable degraded-mode signal is surfaced: the return
value is just the collection, indistinguishable from a fresh read (the
failure is only logged to the console). -/
theorem failed_read_serves_cache (st : List Material) (st2 : List ClientMenuItem) :
    getAllMaterials none st = (st, st) ∧
    getAllMenuItems none st2 = (st2, st2) := by
  constructor <;>
    simp [getAllMaterials, getAllMenuItems, getFromStorageMaterials,
      getFromStorageMenuItems]

/-- Counterexample key input for C10 and witness data for C9: a concrete
client order whose timestamp is 2023-11-14T22:13:20.123Z. -/
def exClientOrder : ClientOrder :=
  { id := "o1"
    customerName := some "Budi"
    items := []
    total := 30000
    date := 1700000000123
    status := OrderStatus.pending }

/-- Claim C9: writing orders to the durable mirror (dates serialized by the
modelled `toISOString`) and reading them back (dates revived by the modelled
`new Date(...)`) is the identity — in particular every date field comes back
as a timestamp value equal to the original, to the millisecond, for every
timestamp within the range `Date` supports. -/
theorem mirror_roundtrip_identity (orders : List ClientOrder)
    (_h : ∀ o ∈ orders, o.date ≤ 8640000000000000) :
    getFromStorageOrders (saveToStorageOrders orders) = orders := by
  unfold getFromStorageOrders saveToStorageOrders
  rw [List.map_map]
  have hcopy : ∀ it : ClientOrderItem,
      ({ it with menuItem := it.menuItem } : ClientOrderItem) = it := fun it => rfl
  conv_rhs => rw [← List.map_id orders]
  apply List.map_congr_left
  intro o _
  show loadOrderRecord (saveOrderRecord o) = o
  cases o
  simp [loadOrderRecord, saveOrderRecord, parseISODate_toISOString, hcopy,
    List.map_map]

/-- Witness for C9 at the singleton mirror write of `exClientOrder`. -/
theorem mirror_roundtrip_identity_witness :
    getFromStorageOrders (saveToStorageOrders [exClientOrder]) = [exClientOrder] :=
  mirror_roundtrip_identity [exClientOrder]
    (by intro o ho; simp at ho; subst ho; decide)

/-- `getKdsTickets` of src/db/indexedDB.ts.  The server responds with a
record mapping order ids to ticket statuses (modelled as an association
list); on any successful response the local mirror is unconditionally
overwritten with it (`localStorage.setItem(..., JSON.stringify(tickets))`),
the empty record included; on a failed fetch the stored mirror is parsed and
returned (the empty record when nothing is stored), mirror untouched. -/
def getKdsTickets (remote : Option (List (String × TicketStatus)))
    (st : List (String × TicketStatus)) :
    List (String × TicketStatus) × List (String × TicketStatus) :=
  match remote with
  | some tickets => (tickets, tickets)
  | none => (st, st)

/-- Counterexample to C10: the claim quantifies over every entity collection,
but `getKdsTickets` overwrites its mirror with whatever a successful fetch
returns — a successful empty response (the kds-tickets endpoint returns the
empty record once all rows are deleted remotely) replaces a non-empty cached
ticket mirror with the empty one, clearing the locally cached data. -/
theorem empty_remote_clears_ticket_cache :
    getKdsTickets (some []) [("o1", TicketStatus.ready)] = ([], []) ∧
    ([("o1", TicketStatus.ready)] : List (String × TicketStatus)) ≠ [] := by
  exact ⟨rfl, by decide⟩

/-- Claim C10 amended: for the materials, menu-items and orders collections a
successful remote read that returns an empty collection leaves the durable
mirror unchanged and returns the previously cached local collection instead
of the empty server result (those readers save only when
`serverData.length > 0`); the kds-tickets collection is the exception — its
reader saves unconditionally, so an empty remote kds-tickets store does
overwrite the cached ticket data with the empty record. -/
theorem empty_remote_read_collection_behavior (st : List StoredOrder)
    (stm : List Material) (stmi : List ClientMenuItem)
    (stk : List (String × TicketStatus)) :
    getAllOrders (some []) st = (getFromStorageOrders st, st) ∧
    getAllMaterials (some []) stm = (stm, stm) ∧
    getAllMenuItems (some []) stmi = (stmi, stmi) ∧
    getKdsTickets (some []) stk = ([], []) := by
  refine ⟨rfl, ?_, ?_, rfl⟩
  · simp [getAllMaterials, getFromStorageMaterials]
  · simp [getAllMenuItems, getFromStorageMenuItems]
